import Mathlib

/-!
Verification development for the nox automation file of iris-esmf-regrid
(src/noxfile.py).  Python strings are embedded as `List Char`, byte
contents as `List Nat`, the filesystem as an association list from path
strings to byte contents, and exceptions as `Except`/`Option` results.
-/

set_option maxRecDepth 4000

namespace Noxfile

/-- Python str.split with a one-character separator: splits at every
occurrence of the separator and keeps empty pieces, as in noxfile.py
lines 132 and 137. -/
def pySplit (sep : Char) : List Char → List (List Char)
  | [] => [[]]
  | c :: rest =>
    if c = sep then [] :: pySplit sep rest
    else
      match pySplit sep rest with
      | [] => [[c]]
      | t :: ts => (c :: t) :: ts

/-- Characters removed by Python str.strip with no argument (ASCII range). -/
def isPySpace (c : Char) : Bool :=
  c == ' ' || c == Char.ofNat 9 || c == Char.ofNat 10 || c == Char.ofNat 13
    || c == Char.ofNat 11 || c == Char.ofNat 12

/-- Python str.strip with no argument: drop whitespace from both ends. -/
def pyStrip (s : List Char) : List Char :=
  ((s.dropWhile isPySpace).reverse.dropWhile isPySpace).reverse

/-- Python str.lower on ASCII text, as used for the repo name in
noxfile.py line 143. -/
def pyLower (s : List Char) : List Char := s.map Char.toLower

/-- Python str.startswith: first argument is the pattern, second the string. -/
def strStarts : List Char → List Char → Bool
  | [], _ => true
  | _ :: _, [] => false
  | p :: ps, c :: cs => p == c && strStarts ps cs

/-- The single-quote character. -/
def quoteS : Char := Char.ofNat 39

/-- The double-quote character. -/
def quoteD : Char := Char.ofNat 34

/-- Test of noxfile.py line 141: repo.startswith on either quote character. -/
def startsQuote (s : List Char) : Bool :=
  match s with
  | [] => false
  | c :: _ => c == quoteS || c == quoteD

/-- Test of noxfile.py line 145: result.endswith on either quote character. -/
def endsQuote (s : List Char) : Bool :=
  match s.getLast? with
  | none => false
  | some c => c == quoteS || c == quoteD

/-- Python repo[1:] applied only when the string starts with a quote
(noxfile.py lines 141-142). -/
def dropLeadQuote (s : List Char) : List Char :=
  if startsQuote s then s.drop 1 else s

/-- Python result[:-1] applied only when the string ends with a quote
(noxfile.py lines 145-146). -/
def dropTrailQuote (s : List Char) : List Char :=
  if endsQuote s then s.dropLast else s

/-- The body of noxfile.py lines 136-147: strip the candidate string, split
it on colons, and accept it only when it has exactly the two parts repo and
artifact with repo equal to github after quote removal and lowering; the
returned artifact has at most one trailing quote removed. -/
def parseRepoRef (s : List Char) : Option (List Char) :=
  let parts := pySplit ':' (pyStrip s)
  if parts.length = 2 then
    let repo := dropLeadQuote (parts.getD 0 [])
    let artifact := parts.getD 1 []
    if pyLower repo = "github".data then some (dropTrailQuote artifact) else none
  else none

/-- The loop of noxfile.py lines 130-135: scan the positional arguments for
the first one of shape --iris=value whose split on the equals sign has
exactly two parts; its stripped value replaces the accumulator (the
IRIS_SOURCE environment variable). -/
def scanPosargs : List (List Char) → Option (List Char) → Option (List Char)
  | [], result => result
  | arg :: rest, result =>
    if strStarts ("--iris=".data) arg then
      let parts := pySplit '=' arg
      if parts.length = 2 then some (pyStrip (parts.getD 1 []))
      else scanPosargs rest result
    else scanPosargs rest result

/-- noxfile.py lines 111-147, _get_iris_github_artifact: the IRIS_SOURCE
environment variable (none when unset) possibly overridden by a --iris=
positional argument, then parsed when non-empty; Python falsiness of the
empty string makes the empty candidate skip the parse and be returned as
is. -/
def getIrisGithubArtifact (irisSource : Option (List Char))
    (posargs : List (List Char)) : Option (List Char) :=
  match scanPosargs posargs irisSource with
  | none => none
  | some s => if s = [] then some [] else parseRepoRef s

/-- noxfile.py line 174: the caller _prepare_env runs the checkout branch
only when the returned artifact is truthy, so none and the empty string
both count as no artifact. -/
def artifactRequested : Option (List Char) → Bool
  | none => false
  | some s => decide (s ≠ [])

/-- noxfile.py line 39. -/
def LOCKFILE_PLATFORM : List Char := "linux-64".data

/-- The name template of noxfile.py line 50 instantiated at lines 55-57. -/
def lockfileTemplate (py_string platform : List Char) : List Char :=
  py_string ++ "-".data ++ platform ++ ".lock".data

/-- noxfile.py lines 42-58, _lockfile_path: the components of the
constructed path, dir = Path() / requirements / nox.lock followed by the
formatted file name; the platform is the literal placeholder when
platform_placeholder is true and linux-64 otherwise. -/
def lockfile_path (py_string : List Char) (platform_placeholder : Bool) :
    List (List Char) :=
  let platform :=
    if platform_placeholder then "\x7bplatform\x7d".data else LOCKFILE_PLATFORM
  ["requirements".data, "nox.lock".data, lockfileTemplate py_string platform]

/-- Posix rendering of a component path, joining with slashes. -/
def pathStr : List (List Char) → List Char
  | [] => []
  | [p] => p
  | p :: rest => p ++ '/' :: pathStr rest

/-- The final component of a component path, Path.name in the source. -/
def pathName (p : List (List Char)) : List Char := p.getLastD []

/-- The parts of a nox session that the helpers consume: the interpreter
version string session.python and the directory returned by
session.create_tmp(). -/
structure Session where
  python : List Char
  tmpDir : List Char

/-- noxfile.py lines 61-63, _session_lockfile: the lockfile path for
session.python with every dot removed (Python replace of dot by the empty
string) and no platform placeholder. -/
def session_lockfile (s : Session) : List (List Char) :=
  lockfile_path (s.python.filter (fun c => c != '.')) false

/-- The session lockfile path rendered as a string. -/
def session_lockfile_str (s : Session) : List Char :=
  pathStr (session_lockfile s)

/-- noxfile.py lines 66-70, _session_cachefile: the tmp directory joined
with the name of the session lockfile. -/
def session_cachefile (s : Session) : List (List Char) :=
  [s.tmpDir, pathName (session_lockfile s)]

/-- The session cachefile path rendered as a string. -/
def session_cachefile_str (s : Session) : List Char :=
  pathStr (session_cachefile s)

/-- Modelled from the spec: hashlib.sha256(bytes).hexdigest() of Python,
which src/noxfile.py calls at lines 85 and 106 but whose implementation
lives outside this repository.  The definitions below follow FIPS 180-4
SHA-256 over a byte list; the 32-bit words are Nat values kept below 2^32
by masking.  The known test vectors are proved further down. -/
def MASK32 : Nat := 0xffffffff

/-- Right rotation of a 32-bit word. -/
def rotr (k x : Nat) : Nat := ((x >>> k) ||| (x <<< (32 - k))) &&& MASK32

/-- The big sigma-zero function of SHA-256. -/
def bigS0 (x : Nat) : Nat := rotr 2 x ^^^ rotr 13 x ^^^ rotr 22 x

/-- The big sigma-one function of SHA-256. -/
def bigS1 (x : Nat) : Nat := rotr 6 x ^^^ rotr 11 x ^^^ rotr 25 x

/-- The small sigma-zero function of SHA-256. -/
def smallS0 (x : Nat) : Nat := rotr 7 x ^^^ rotr 18 x ^^^ (x >>> 3)

/-- The small sigma-one function of SHA-256. -/
def smallS1 (x : Nat) : Nat := rotr 17 x ^^^ rotr 19 x ^^^ (x >>> 10)

/-- The choice function of SHA-256. -/
def chF (x y z : Nat) : Nat := (x &&& y) ^^^ ((MASK32 ^^^ x) &&& z)

/-- The majority function of SHA-256. -/
def majF (x y z : Nat) : Nat := (x &&& y) ^^^ (x &&& z) ^^^ (y &&& z)

/-- Splits a number into the given count of 32-bit words, most significant
word first. -/
def natWords : Nat → Nat → List Nat
  | 0, _ => []
  | n + 1, x => natWords n (x >>> 32) ++ [x &&& MASK32]

/-- The 64 SHA-256 round constants, packed big-endian into one number. -/
def K256pack : Nat := 0x428a2f9871374491b5c0fbcfe9b5dba53956c25b59f111f1923f82a4ab1c5ed5d807aa9812835b01243185be550c7dc372be5d7480deb1fe9bdc06a7c19bf174e49b69c1efbe47860fc19dc6240ca1cc2de92c6f4a7484aa5cb0a9dc76f988da983e5152a831c66db00327c8bf597fc7c6e00bf3d5a7914706ca63511429296727b70a852e1b21384d2c6dfc53380d13650a7354766a0abb81c2c92e92722c85a2bfe8a1a81a664bc24b8b70c76c51a3d192e819d6990624f40e3585106aa07019a4c1161e376c082748774c34b0bcb5391c0cb34ed8aa4a5b9cca4f682e6ff3748f82ee78a5636f84c878148cc7020890befffaa4506cebbef9a3f7c67178f2

/-- The 64 SHA-256 round constants. -/
def K256 : List Nat := natWords 64 K256pack

/-- The eight-word working state and hash value of SHA-256. -/
structure Sha2St where
  a : Nat
  b : Nat
  c : Nat
  d : Nat
  e : Nat
  f : Nat
  g : Nat
  h : Nat

/-- The eight initial SHA-256 hash values, packed big-endian into one
number. -/
def IVpack : Nat := 0x6a09e667bb67ae853c6ef372a54ff53a510e527f9b05688c1f83d9ab5be0cd19

/-- The initial SHA-256 hash value. -/
def sha256Init : Sha2St :=
  ⟨(IVpack >>> 224) &&& MASK32, (IVpack >>> 192) &&& MASK32,
   (IVpack >>> 160) &&& MASK32, (IVpack >>> 128) &&& MASK32,
   (IVpack >>> 96) &&& MASK32, (IVpack >>> 64) &&& MASK32,
   (IVpack >>> 32) &&& MASK32, IVpack &&& MASK32⟩

/-- One SHA-256 round, consuming a round constant paired with a schedule
word. -/
def sha256Round (st : Sha2St) (kw : Nat × Nat) : Sha2St :=
  let t1 := (st.h + bigS1 st.e + chF st.e st.f st.g + kw.1 + kw.2) &&& MASK32
  let t2 := (bigS0 st.a + majF st.a st.b st.c) &&& MASK32
  ⟨(t1 + t2) &&& MASK32, st.a, st.b, st.c,
   (st.d + t1) &&& MASK32, st.e, st.f, st.g⟩

/-- Message-schedule extension loop: the accumulator holds the schedule so
far in reverse order and 48 new words are pushed. -/
def sha256Extend : Nat → List Nat → List Nat
  | 0, acc => acc.reverse
  | n + 1, acc =>
    let w :=
      (smallS1 (acc.getD 1 0) + acc.getD 6 0 + smallS0 (acc.getD 14 0)
        + acc.getD 15 0) &&& MASK32
    sha256Extend n (w :: acc)

/-- The 64-word message schedule of one block. -/
def sha256Schedule (block : List Nat) : List Nat :=
  sha256Extend 48 block.reverse

/-- Compression of one 16-word block into the running hash value. -/
def sha256Compress (hs : Sha2St) (block : List Nat) : Sha2St :=
  let st := (K256.zip (sha256Schedule block)).foldl sha256Round hs
  ⟨(hs.a + st.a) &&& MASK32, (hs.b + st.b) &&& MASK32,
   (hs.c + st.c) &&& MASK32, (hs.d + st.d) &&& MASK32,
   (hs.e + st.e) &&& MASK32, (hs.f + st.f) &&& MASK32,
   (hs.g + st.g) &&& MASK32, (hs.h + st.h) &&& MASK32⟩

/-- Big-endian packing of bytes into 32-bit words; a trailing group of
fewer than four bytes is dropped (padding always yields a multiple of
four). -/
def sha256Words : List Nat → List Nat
  | b0 :: b1 :: b2 :: b3 :: rest =>
    ((((b0 <<< 8) ||| b1) <<< 8 ||| b2) <<< 8 ||| b3) :: sha256Words rest
  | _ => []

/-- Fold of the compression function over the 16-word blocks of the padded
message. -/
def sha256Blocks : Sha2St → List Nat → Sha2St
  | hs, w0 :: w1 :: w2 :: w3 :: w4 :: w5 :: w6 :: w7 :: w8 :: w9 :: w10
      :: w11 :: w12 :: w13 :: w14 :: w15 :: rest =>
    sha256Blocks
      (sha256Compress hs
        [w0, w1, w2, w3, w4, w5, w6, w7, w8, w9, w10, w11, w12, w13, w14, w15])
      rest
  | hs, _ => hs

/-- The eight-byte big-endian encoding of the bit length. -/
def sha256LenBytes (n : Nat) : List Nat :=
  [(n >>> 56) &&& 255, (n >>> 48) &&& 255, (n >>> 40) &&& 255,
   (n >>> 32) &&& 255, (n >>> 24) &&& 255, (n >>> 16) &&& 255,
   (n >>> 8) &&& 255, n &&& 255]

/-- FIPS 180-4 padding: a 0x80 byte, zeros up to 56 modulo 64, then the
bit length. -/
def sha256Pad (msg : List Nat) : List Nat :=
  let len := msg.length
  let zeros := (119 - len % 64) % 64
  msg ++ 0x80 :: List.replicate zeros 0 ++ sha256LenBytes (8 * len)

/-- The SHA-256 hash value of a byte list. -/
def sha256 (msg : List Nat) : Sha2St :=
  sha256Blocks sha256Init (sha256Words (sha256Pad msg))

/-- Lowercase hexadecimal digit of a value below 16. -/
def hexChar (n : Nat) : Char :=
  if n < 10 then Char.ofNat (48 + n) else Char.ofNat (87 + n)

/-- Eight lowercase hexadecimal digits of a 32-bit word. -/
def hexWord (w : Nat) : List Char :=
  [hexChar ((w >>> 28) &&& 15), hexChar ((w >>> 24) &&& 15),
   hexChar ((w >>> 20) &&& 15), hexChar ((w >>> 16) &&& 15),
   hexChar ((w >>> 12) &&& 15), hexChar ((w >>> 8) &&& 15),
   hexChar ((w >>> 4) &&& 15), hexChar (w &&& 15)]

/-- Modelled from the spec: hashlib.sha256(bytes).hexdigest(), the
64-character lowercase hexadecimal digest used by _venv_changed and
_cache_venv. -/
def sha256hex (msg : List Nat) : List Char :=
  let st := sha256 msg
  hexWord st.a ++ hexWord st.b ++ hexWord st.c ++ hexWord st.d
    ++ hexWord st.e ++ hexWord st.f ++ hexWord st.g ++ hexWord st.h

/-- The filesystem visible to the helpers: an association list from path
strings to byte contents; every entry is a regular file. -/
abbrev FS := List (List Char × List Nat)

/-- Reading a file: the content stored at the first matching path, none
when the path is absent (a Python open would raise FileNotFoundError). -/
def readFile : FS → List Char → Option (List Nat)
  | [], _ => none
  | (p, c) :: rest, q => if p = q then some c else readFile rest q

/-- Writing a file: replace the first entry at the path or append a new
one. -/
def writeFile : FS → List Char → List Nat → FS
  | [], p, c => [(p, c)]
  | (q, d) :: rest, p, c =>
    if q = p then (p, c) :: rest else (q, d) :: writeFile rest p c

/-- Path.is_file of the source on this filesystem model. -/
def isFile (fs : FS) (p : List Char) : Bool := (readFile fs p).isSome

/-- Text written or read in Python text mode, as the byte codes of its
characters. -/
def strBytes (s : List Char) : List Nat := s.map Char.toNat

/-- noxfile.py lines 73-76, _venv_populated: true when the session
cachefile is an existing file. -/
def venv_populated (s : Session) (fs : FS) : Bool :=
  isFile fs (session_cachefile_str s)

/-- noxfile.py lines 79-89, _venv_changed: false when not populated;
otherwise the lockfile bytes are hashed, the cachefile text is read, and
the result is their inequality.  A missing file in either read is a raised
exception, modelled as none. -/
def venv_changed (s : Session) (fs : FS) : Option Bool :=
  if venv_populated s fs = true then
    match readFile fs (session_lockfile_str s) with
    | none => none
    | some lockB =>
      let expected := sha256hex lockB
      match readFile fs (session_cachefile_str s) with
      | none => none
      | some cacheB => some (decide (cacheB ≠ strBytes expected))
  else some false

/-- noxfile.py lines 92-108, _cache_venv: hash the lockfile bytes and
write the hexadecimal digest to the session cachefile; a missing lockfile
is a raised exception, modelled as none. -/
def cache_venv (s : Session) (fs : FS) : Option FS :=
  match readFile fs (session_lockfile_str s) with
  | none => none
  | some lockB =>
    some (writeFile fs (session_cachefile_str s) (strBytes (sha256hex lockB)))

/-- Python exceptions distinguished by the handler of noxfile.py lines
231-234: FileExistsError against everything else. -/
inductive PyErr where
  | fileExists : PyErr
  | err : Nat → PyErr
deriving DecidableEq

/-- noxfile.py lines 231-234: the try block around mkdir whose except
clause catches FileExistsError alone and passes. -/
def catchFileExists (r : Except PyErr Unit) : Except PyErr Unit :=
  match r with
  | Except.ok _ => Except.ok ()
  | Except.error e => if e = PyErr.fileExists then Except.ok () else Except.error e

/-- The body of the per-requirements-file loop of update_lockfiles,
noxfile.py lines 223-273, as a sequence of effect outcomes: the guarded
mkdir, the copy of the requirements file, the optional Iris requirements
download (present only when an Iris artifact was requested), and the
conda-lock invocation.  Python exception propagation is the error short
circuit. -/
def update_lockfiles_iteration (mkdirRes copyRes : Except PyErr Unit)
    (irisRes : Option (Except PyErr Unit)) (condaRes : Except PyErr Unit) :
    Except PyErr Unit :=
  match catchFileExists mkdirRes with
  | Except.error e => Except.error e
  | Except.ok _ =>
    match copyRes with
    | Except.error e => Except.error e
    | Except.ok _ =>
      match (match irisRes with | none => Except.ok () | some r => r) with
      | Except.error e => Except.error e
      | Except.ok _ => condaRes

/-- A concrete session used by the witnesses: interpreter 3.8, tmp
directory as nox lays it out. -/
def sessionA : Session := ⟨"3.8".data, ".nox/tests/tmp".data⟩

/-- A filesystem holding only an empty lockfile for sessionA. -/
def fsLockEmpty : FS := [(session_lockfile_str sessionA, [])]

/-- A filesystem whose cachefile already stores the digest of the empty
lockfile. -/
def fsSynced : FS :=
  [(session_lockfile_str sessionA, []),
   (session_cachefile_str sessionA, strBytes (sha256hex []))]

/-- A filesystem holding only the three-byte lockfile abc for sessionA. -/
def fsLockAbc : FS := [(session_lockfile_str sessionA, [97, 98, 99])]

theorem charToNat_inj {a b : Char} (h : a.toNat = b.toNat) : a = b := by
  have h2 := congrArg Char.ofNat h
  rwa [Char.ofNat_toNat, Char.ofNat_toNat] at h2

theorem strBytes_inj : ∀ {a b : List Char}, strBytes a = strBytes b → a = b
  | [], [], _ => rfl
  | [], _ :: _, h => by simp [strBytes] at h
  | _ :: _, [], h => by simp [strBytes] at h
  | x :: xs, y :: ys, h => by
    simp only [strBytes, List.map_cons, List.cons.injEq] at h
    exact congrArg₂ List.cons (charToNat_inj h.1) (strBytes_inj h.2)

theorem pySplit_of_not_mem {sep : Char} :
    ∀ {s : List Char}, sep ∉ s → pySplit sep s = [s]
  | [], _ => rfl
  | c :: rest, h => by
    have h1 : ¬ (c = sep) := fun hh => h (List.mem_cons.mpr (Or.inl hh.symm))
    have h2 : sep ∉ rest := fun hh => h (List.mem_cons.mpr (Or.inr hh))
    rw [pySplit, if_neg h1, pySplit_of_not_mem h2]

theorem pySplit_append {sep : Char} {v : List Char} :
    ∀ {u : List Char}, sep ∉ u →
      pySplit sep (u ++ sep :: v) = u :: pySplit sep v
  | [], _ => by rw [List.nil_append, pySplit, if_pos rfl]
  | c :: cs, h => by
    have h1 : ¬ (c = sep) := fun hh => h (List.mem_cons.mpr (Or.inl hh.symm))
    have h2 : sep ∉ cs := fun hh => h (List.mem_cons.mpr (Or.inr hh))
    rw [List.cons_append, pySplit, if_neg h1, pySplit_append h2]

theorem pySplit_pair {sep : Char} {u v : List Char} (hu : sep ∉ u)
    (hv : sep ∉ v) : pySplit sep (u ++ sep :: v) = [u, v] := by
  rw [pySplit_append hu, pySplit_of_not_mem hv]

theorem strStarts_append_self :
    ∀ (p t : List Char), strStarts p (p ++ t) = true
  | [], _ => rfl
  | c :: cs, t => by
    rw [List.cons_append, strStarts, strStarts_append_self cs t]
    simp

theorem readFile_writeFile_same :
    ∀ (fs : FS) (p : List Char) (c : List Nat),
      readFile (writeFile fs p c) p = some c
  | [], p, c => by simp [writeFile, readFile]
  | (q, d) :: rest, p, c => by
    by_cases h : q = p
    · rw [writeFile, if_pos h, readFile, if_pos rfl]
    · rw [writeFile, if_neg h, readFile, if_neg h,
        readFile_writeFile_same rest p c]

theorem readFile_writeFile_ne :
    ∀ (fs : FS) {p q : List Char} (c : List Nat), q ≠ p →
      readFile (writeFile fs p c) q = readFile fs q
  | [], p, q, c, h => by
    show (if p = q then some c else readFile [] q) = readFile [] q
    rw [if_neg (fun hh => h hh.symm)]
  | (r, d) :: rest, p, q, c, h => by
    by_cases hr : r = p
    · rw [writeFile, if_pos hr, readFile, if_neg (fun hh => h hh.symm),
        readFile, hr, if_neg (fun hh => h hh.symm)]
    · rw [writeFile, if_neg hr, readFile, readFile]
      by_cases hq : r = q
      · rw [if_pos hq, if_pos hq]
      · rw [if_neg hq, if_neg hq, readFile_writeFile_ne rest c h]

theorem sha256hex_len (b : List Nat) : (sha256hex b).length = 64 := by
  simp [sha256hex, hexWord]

theorem sha256hex_nil :
    sha256hex []
      = "e3b0c44298fc1c149afbf4c8996fb92427ae41e4649b934ca495991b7852b855".data := by
  decide

theorem sha256hex_abc :
    sha256hex [97, 98, 99]
      = "ba7816bf8f01cfea414140de5dae2223b00361a396177a9cb410ff61f20015ad".data := by
  decide

theorem parseRepoRef_two_parts {s repo ref : List Char}
    (hsp : pySplit ':' (pyStrip s) = [repo, ref]) :
    parseRepoRef s
      = (if pyLower (dropLeadQuote repo) = "github".data
          then some (dropTrailQuote ref) else none) := by
  unfold parseRepoRef
  rw [hsp]
  simp [List.getD]

theorem parseRepoRef_bad_split {s : List Char}
    (hlen : (pySplit ':' (pyStrip s)).length ≠ 2) : parseRepoRef s = none := by
  unfold parseRepoRef
  simp only [if_neg hlen]

/-- C1: the code as written maps the version string 38 to the path
requirements/nox.lock/38-linux-64.lock (and with the placeholder option to
requirements/nox.lock/38-\x7bplatform\x7d.lock), not to the claimed
py38-prefixed names; the py38 names only arise for the py38 stem that
update_lockfiles passes, so the session side computes a path that the
update side never writes. -/
theorem lockfile_path_missing_py_prefix :
    pathStr (lockfile_path ("38".data) false)
        = "requirements/nox.lock/38-linux-64.lock".data ∧
    pathStr (lockfile_path ("38".data) true)
        = "requirements/nox.lock/38-\x7bplatform\x7d.lock".data ∧
    pathStr (lockfile_path ("38".data) false)
        ≠ "requirements/nox.lock/py38-linux-64.lock".data ∧
    session_lockfile_str ⟨"3.8".data, ".nox/tests/tmp".data⟩
        = "requirements/nox.lock/38-linux-64.lock".data ∧
    pathStr (lockfile_path ("py38".data) false)
        = "requirements/nox.lock/py38-linux-64.lock".data := by
  decide

/-- C2 counterexample: the input GITHUB:v1 does not carry the literal
github: prefix, yet the parser returns v1 instead of the nothing the claim
demands, because the repo comparison lowers the candidate first. -/
theorem iris_artifact_parser_counterexample :
    strStarts ("github:".data) ("GITHUB:v1".data) = false ∧
    getIrisGithubArtifact (some ("GITHUB:v1".data)) [] = some ("v1".data) := by
  decide

/-- C2 amended: the parser returns the ref for every input github:ref
whose ref contains no colon, no surrounding whitespace and no trailing
quote; it returns none for every nonempty input that does not split on
colons into exactly two parts after stripping, or whose first part, after
removing at most one leading quote, is not github ignoring letter case;
the empty input yields the empty string. -/
theorem iris_artifact_parser_amended :
    (∀ ref : List Char, ':' ∉ ref → endsQuote ref = false →
      pyStrip ("github:".data ++ ref) = "github:".data ++ ref →
      getIrisGithubArtifact (some ("github:".data ++ ref)) [] = some ref) ∧
    (∀ s : List Char, s ≠ [] → (pySplit ':' (pyStrip s)).length ≠ 2 →
      getIrisGithubArtifact (some s) [] = none) ∧
    (∀ (s repo ref : List Char), s ≠ [] →
      pySplit ':' (pyStrip s) = [repo, ref] →
      pyLower (dropLeadQuote repo) ≠ "github".data →
      getIrisGithubArtifact (some s) [] = none) ∧
    getIrisGithubArtifact (some []) [] = some [] := by
  refine ⟨?_, ?_, ?_, rfl⟩
  · intro ref hcolon hquote hstrip
    have hne : ("github:".data ++ ref) ≠ [] := by
      intro hh
      have := congrArg List.length hh
      simp at this
    have hsp : pySplit ':' ("github:".data ++ ref) = ["github".data, ref] :=
      @pySplit_pair ':' ("github".data) ref (by decide) hcolon
    have hsp2 : pySplit ':' (pyStrip ("github:".data ++ ref))
        = ["github".data, ref] := by rw [hstrip]; exact hsp
    show (if ("github:".data ++ ref) = [] then some []
        else parseRepoRef ("github:".data ++ ref)) = some ref
    rw [if_neg hne, parseRepoRef_two_parts hsp2, if_pos (by decide)]
    simp [dropTrailQuote, hquote]
  · intro s hne hlen
    show (if s = [] then some [] else parseRepoRef s) = none
    rw [if_neg hne, parseRepoRef_bad_split hlen]
  · intro s repo ref hne hsp hrepo
    show (if s = [] then some [] else parseRepoRef s) = none
    rw [if_neg hne, parseRepoRef_two_parts hsp, if_neg hrepo]

/-- C2 witness: concrete instances of the amended statement, one per
conjunct with a hypothesis. -/
theorem iris_artifact_parser_amended_witness :
    getIrisGithubArtifact (some ("github:".data ++ "branch-name".data)) []
        = some ("branch-name".data) ∧
    getIrisGithubArtifact (some ("nothing-here".data)) [] = none ∧
    getIrisGithubArtifact (some ("gitlab:branch".data)) [] = none := by
  have h := iris_artifact_parser_amended
  exact ⟨h.1 ("branch-name".data) (by decide) (by decide) (by decide),
    h.2.1 ("nothing-here".data) (by decide) (by decide),
    h.2.2.1 ("gitlab:branch".data) ("gitlab".data) ("branch".data)
      (by decide) (by decide) (by decide)⟩

/-- C4: with both the IRIS_SOURCE environment value and a leading
--iris=value positional argument present, the result ignores the
environment value and is the parse of the stripped CLI value. -/
theorem cli_overrides_env (env v : List Char) (rest : List (List Char))
    (h : '=' ∉ v) :
    getIrisGithubArtifact (some env) (("--iris=".data ++ v) :: rest)
        = getIrisGithubArtifact none (("--iris=".data ++ v) :: rest) ∧
    getIrisGithubArtifact (some env) (("--iris=".data ++ v) :: rest)
        = (if pyStrip v = [] then some [] else parseRepoRef (pyStrip v)) := by
  have hsp : pySplit '=' ("--iris=".data ++ v) = ["--iris".data, v] :=
    @pySplit_pair '=' ("--iris".data) v (by decide) h
  have hscan : ∀ acc, scanPosargs (("--iris=".data ++ v) :: rest) acc
      = some (pyStrip v) := by
    intro acc
    rw [scanPosargs, if_pos (strStarts_append_self ("--iris=".data) v), hsp]
    simp [List.getD]
  constructor
  · show (match scanPosargs (("--iris=".data ++ v) :: rest) (some env) with
        | none => none
        | some s => if s = [] then some [] else parseRepoRef s)
      = (match scanPosargs (("--iris=".data ++ v) :: rest) none with
        | none => none
        | some s => if s = [] then some [] else parseRepoRef s)
    rw [hscan, hscan]
  · show (match scanPosargs (("--iris=".data ++ v) :: rest) (some env) with
        | none => none
        | some s => if s = [] then some [] else parseRepoRef s)
      = (if pyStrip v = [] then some [] else parseRepoRef (pyStrip v))
    rw [hscan]

/-- C4 witness: a github CLI value beats a github environment value. -/
theorem cli_overrides_env_witness :
    getIrisGithubArtifact (some ("github:env-branch".data))
        [("--iris=".data ++ "github:cli-branch".data)]
      = some ("cli-branch".data) := by
  have h := cli_overrides_env ("github:env-branch".data)
      ("github:cli-branch".data) [] (by decide)
  rw [h.2]
  decide

/-- C3: with the lockfile and cachefile both readable, the changed check
is false exactly when the stored cachefile text equals the SHA-256 hex
digest of the lockfile bytes, and true exactly when it differs. -/
theorem venv_changed_digest_comparison (s : Session) (fs : FS)
    (lockB cacheB : List Nat)
    (hl : readFile fs (session_lockfile_str s) = some lockB)
    (hc : readFile fs (session_cachefile_str s) = some cacheB) :
    (venv_changed s fs = some false ↔ cacheB = strBytes (sha256hex lockB)) ∧
    (venv_changed s fs = some true ↔ cacheB ≠ strBytes (sha256hex lockB)) := by
  have hp : venv_populated s fs = true := by
    unfold venv_populated isFile
    rw [hc]
    rfl
  unfold venv_changed
  rw [hp, hl, hc]
  simp

/-- C3 witness: on the synced filesystem whose cachefile stores the digest
of the empty lockfile, the changed check is false. -/
theorem venv_changed_digest_comparison_witness :
    venv_changed sessionA fsSynced = some false := by
  have h := venv_changed_digest_comparison sessionA fsSynced []
      (strBytes (sha256hex [])) rfl rfl
  exact h.1.mpr rfl

/-- C5: with the lockfile readable, caching writes exactly the SHA-256 hex
digest of its bytes, a 64-character digest, to the session cachefile. -/
theorem cache_venv_writes_digest (s : Session) (fs : FS) (lockB : List Nat)
    (hl : readFile fs (session_lockfile_str s) = some lockB) :
    cache_venv s fs
        = some (writeFile fs (session_cachefile_str s)
            (strBytes (sha256hex lockB))) ∧
    (sha256hex lockB).length = 64 := by
  constructor
  · unfold cache_venv
    rw [hl]
  · exact sha256hex_len lockB

/-- C5 witness: caching the abc lockfile writes the digest of abc. -/
theorem cache_venv_writes_digest_witness :
    cache_venv sessionA fsLockAbc
        = some (writeFile fsLockAbc (session_cachefile_str sessionA)
            (strBytes (sha256hex [97, 98, 99]))) ∧
    (sha256hex [97, 98, 99]).length = 64 :=
  cache_venv_writes_digest sessionA fsLockAbc [97, 98, 99] rfl

/-- C6: right after caching, with the lockfile unchanged, the changed
check is false; overwriting the lockfile with bytes of a different digest
makes it true.  The cachefile and lockfile live at distinct paths. -/
theorem cache_then_change_roundtrip (s : Session) (fs fs2 : FS)
    (lockB : List Nat)
    (hne : session_cachefile_str s ≠ session_lockfile_str s)
    (hl : readFile fs (session_lockfile_str s) = some lockB)
    (hcache : cache_venv s fs = some fs2) :
    venv_changed s fs2 = some false ∧
    (∀ newB : List Nat, sha256hex newB ≠ sha256hex lockB →
      venv_changed s (writeFile fs2 (session_lockfile_str s) newB)
        = some true) := by
  have hfs2 : fs2 = writeFile fs (session_cachefile_str s)
      (strBytes (sha256hex lockB)) := by
    unfold cache_venv at hcache
    rw [hl] at hcache
    exact (Option.some.injEq _ _).mp hcache.symm
  subst hfs2
  have hcread : readFile
      (writeFile fs (session_cachefile_str s) (strBytes (sha256hex lockB)))
      (session_cachefile_str s) = some (strBytes (sha256hex lockB)) :=
    readFile_writeFile_same fs _ _
  have hlread : readFile
      (writeFile fs (session_cachefile_str s) (strBytes (sha256hex lockB)))
      (session_lockfile_str s) = some lockB := by
    rw [readFile_writeFile_ne fs _ (fun hh => hne hh.symm)]
    exact hl
  constructor
  · have hp : venv_populated s
        (writeFile fs (session_cachefile_str s)
          (strBytes (sha256hex lockB))) = true := by
      unfold venv_populated isFile
      rw [hcread]
      rfl
    unfold venv_changed
    rw [hp, hlread, hcread]
    simp
  · intro newB hd
    have hcread2 : readFile
        (writeFile
          (writeFile fs (session_cachefile_str s) (strBytes (sha256hex lockB)))
          (session_lockfile_str s) newB)
        (session_cachefile_str s) = some (strBytes (sha256hex lockB)) := by
      rw [readFile_writeFile_ne _ _ hne]
      exact hcread
    have hlread2 : readFile
        (writeFile
          (writeFile fs (session_cachefile_str s) (strBytes (sha256hex lockB)))
          (session_lockfile_str s) newB)
        (session_lockfile_str s) = some newB :=
      readFile_writeFile_same _ _ _
    have hp : venv_populated s
        (writeFile
          (writeFile fs (session_cachefile_str s) (strBytes (sha256hex lockB)))
          (session_lockfile_str s) newB) = true := by
      unfold venv_populated isFile
      rw [hcread2]
      rfl
    have hneq : strBytes (sha256hex lockB) ≠ strBytes (sha256hex newB) :=
      fun heq => hd (strBytes_inj heq).symm
    unfold venv_changed
    rw [hp, hlread2, hcread2]
    simp [hneq]

/-- C6 witness: cache the abc lockfile, observe no change, then overwrite
the lockfile with the empty byte string and observe a change; the two
digests differ by the SHA-256 test vectors. -/
theorem cache_then_change_roundtrip_witness :
    venv_changed sessionA
        (writeFile fsLockAbc (session_cachefile_str sessionA)
          (strBytes (sha256hex [97, 98, 99]))) = some false ∧
    venv_changed sessionA
        (writeFile
          (writeFile fsLockAbc (session_cachefile_str sessionA)
            (strBytes (sha256hex [97, 98, 99])))
          (session_lockfile_str sessionA) []) = some true := by
  have h := cache_then_change_roundtrip sessionA fsLockAbc
      (writeFile fsLockAbc (session_cachefile_str sessionA)
        (strBytes (sha256hex [97, 98, 99])))
      [97, 98, 99] (by decide) rfl rfl
  refine ⟨h.1, h.2 [] ?_⟩
  rw [sha256hex_nil, sha256hex_abc]
  decide

/-- C7: a FileExistsError from the guarded mkdir is swallowed and the
iteration continues as if mkdir had succeeded; any other error from
mkdir, and any error at all from the copy, the Iris download or the
conda-lock run, becomes the immediate result of the iteration. -/
theorem update_lockfiles_error_handling :
    (∀ (c : Except PyErr Unit) (i : Option (Except PyErr Unit))
        (r : Except PyErr Unit),
      update_lockfiles_iteration (Except.error PyErr.fileExists) c i r
        = update_lockfiles_iteration (Except.ok ()) c i r) ∧
    (∀ (e : PyErr) (c : Except PyErr Unit) (i : Option (Except PyErr Unit))
        (r : Except PyErr Unit), e ≠ PyErr.fileExists →
      update_lockfiles_iteration (Except.error e) c i r = Except.error e) ∧
    (∀ (e : PyErr) (i : Option (Except PyErr Unit)) (r : Except PyErr Unit),
      update_lockfiles_iteration (Except.ok ()) (Except.error e) i r
        = Except.error e) ∧
    (∀ (e : PyErr) (r : Except PyErr Unit),
      update_lockfiles_iteration (Except.ok ()) (Except.ok ())
          (some (Except.error e)) r = Except.error e) ∧
    (∀ e : PyErr,
      update_lockfiles_iteration (Except.ok ()) (Except.ok ()) none
          (Except.error e) = Except.error e) := by
  refine ⟨fun c i r => rfl, fun e c i r he => ?_, fun e i r => rfl,
    fun e r => rfl, fun e => rfl⟩
  simp [update_lockfiles_iteration, catchFileExists, he]

/-- C7 witness: a FileExistsError from mkdir lets the iteration succeed;
a PermissionError-like other error aborts it with that error. -/
theorem update_lockfiles_error_handling_witness :
    update_lockfiles_iteration (Except.error PyErr.fileExists)
        (Except.ok ()) none (Except.ok ()) = Except.ok () ∧
    update_lockfiles_iteration (Except.error (PyErr.err 13))
        (Except.ok ()) none (Except.ok ()) = Except.error (PyErr.err 13) := by
  have h := update_lockfiles_error_handling
  refine ⟨?_, h.2.1 (PyErr.err 13) (Except.ok ()) none (Except.ok ())
      (by decide)⟩
  rw [h.1 (Except.ok ()) none (Except.ok ())]
  rfl

/-- C8: the populated check is true exactly when the file at the tmp
directory joined with the name of the session lockfile exists. -/
theorem venv_populated_iff_cachefile (s : Session) (fs : FS) :
    venv_populated s fs = true
      ↔ isFile fs (s.tmpDir ++ '/' :: pathName (session_lockfile s)) = true :=
  Iff.rfl

/-- C9: an unpopulated environment is never reported as changed, whatever
the lockfile holds. -/
theorem venv_changed_unpopulated (s : Session) (fs : FS)
    (h : venv_populated s fs = false) : venv_changed s fs = some false := by
  unfold venv_changed
  rw [h]
  simp

/-- C9 witness: on the empty filesystem the session is unpopulated and the
changed check returns false. -/
theorem venv_changed_unpopulated_witness :
    venv_changed sessionA [] = some false :=
  venv_changed_unpopulated sessionA [] rfl

/-- C10: whenever the stripped input splits on colons into a repo part
that equals github case-insensitively after removing at most one leading
quote, the parser returns the ref part with at most one trailing quote
removed; the input github: with an empty ref yields the empty string,
which the caller guard treats as no artifact. -/
theorem iris_artifact_quote_case_tolerance :
    (∀ (s repo ref : List Char),
      pySplit ':' (pyStrip s) = [repo, ref] →
      pyLower (dropLeadQuote repo) = "github".data →
      getIrisGithubArtifact (some s) [] = some (dropTrailQuote ref)) ∧
    getIrisGithubArtifact (some ("github:".data)) [] = some [] ∧
    artifactRequested (getIrisGithubArtifact (some ("github:".data)) [])
      = false := by
  refine ⟨?_, by decide, by decide⟩
  intro s repo ref hsp hlow
  rcases eq_or_ne s [] with rfl | hne
  · simp [pyStrip, pySplit] at hsp
  · show (if s = [] then some [] else parseRepoRef s) = some (dropTrailQuote ref)
    rw [if_neg hne, parseRepoRef_two_parts hsp, if_pos hlow]

/-- C10 witness: the doubly quoted mixed-case input yields the bare ref. -/
theorem iris_artifact_quote_case_tolerance_witness :
    getIrisGithubArtifact (some ("\"GitHub:v1.0\"".data)) []
      = some ("v1.0".data) := by
  have h := iris_artifact_quote_case_tolerance
  have h2 := h.1 ("\"GitHub:v1.0\"".data) ("\"GitHub".data) ("v1.0\"".data)
      (by decide) (by decide)
  rw [h2]
  decide

end Noxfile
